import Mathlib

/-!
Shallow embedding of the Modbus client codec from
src/src/serialbus/qmodbusclient.cpp: request builders, the per-function
response decoders, the dispatch switch of QModbusClientPrivate::processResponse
and the completion step QModbusClientPrivate::processQueueElement.

Bytes are modelled as Nat with an explicit mod 256 wherever the C++ code
converts through quint8 (or std::bitset of 8), and 16-bit fields as Nat with
mod 65536. Payloads are lists of bytes. A decoder returns
Option (Bool times Option QModbusDataUnit): the outer none marks an
out-of-range payload access (the C++ code would index outside the byte
array there), and the pair carries the boolean return value together with
the final state of the optional out data unit.
-/

namespace ModbusClient

/-! Function codes, from the enumeration the source file uses
(values fixed by the Modbus application protocol). -/

def ReadCoils : Nat := 0x01

def ReadDiscreteInputs : Nat := 0x02

def ReadHoldingRegisters : Nat := 0x03

def ReadInputRegisters : Nat := 0x04

def WriteSingleCoil : Nat := 0x05

def WriteSingleRegister : Nat := 0x06

def ReadExceptionStatus : Nat := 0x07

def Diagnostics : Nat := 0x08

def GetCommEventCounter : Nat := 0x0B

def GetCommEventLog : Nat := 0x0C

def WriteMultipleCoils : Nat := 0x0F

def WriteMultipleRegisters : Nat := 0x10

def ReportServerId : Nat := 0x11

def ReadFileRecord : Nat := 0x14

def WriteFileRecord : Nat := 0x15

def MaskWriteRegister : Nat := 0x16

def ReadWriteMultipleRegisters : Nat := 0x17

def ReadFifoQueue : Nat := 0x18

def EncapsulatedInterfaceTransport : Nat := 0x2B

/-- Wire constant for a switched-on coil in a single-coil write. -/
def CoilOn : Nat := 0xFF00

/-- Wire constant for a switched-off coil in a single-coil write. -/
def CoilOff : Nat := 0x0000

/-- Modelled from the spec: the register kinds of a Data Unit
(QModbusDataUnit::RegisterType; the header is not part of src/). -/
inductive RegisterType where
  | Invalid
  | DiscreteInputs
  | Coils
  | InputRegisters
  | HoldingRegisters
deriving DecidableEq, Repr

/-- Modelled from the spec: QModbusDataUnit, one contiguous range of a single
register or coil kind, with kind, start address, element count and the ordered
16-bit values (the header defining the class is not part of src/). -/
structure QModbusDataUnit where
  registerType : RegisterType
  startAddress : Nat
  valueCount : Nat
  values : List Nat
deriving DecidableEq, Repr

/-- Modelled from the spec: QModbusDataUnit::value returns the element at an
index, or 0 outside the range (QVector::value semantics). -/
def QModbusDataUnit.value (d : QModbusDataUnit) (i : Nat) : Nat :=
  d.values.getD i 0

/-- Modelled from the spec: setter for the values field only. -/
def QModbusDataUnit.setValues (d : QModbusDataUnit) (vs : List Nat) : QModbusDataUnit :=
  { d with values := vs }

/-- Modelled from the spec: setter for the valueCount field only. -/
def QModbusDataUnit.setValueCount (d : QModbusDataUnit) (c : Nat) : QModbusDataUnit :=
  { d with valueCount := c }

/-- Modelled from the spec: setter for the startAddress field only. -/
def QModbusDataUnit.setStartAddress (d : QModbusDataUnit) (a : Nat) : QModbusDataUnit :=
  { d with startAddress := a }

/-- Modelled from the spec: setter for the registerType field only. -/
def QModbusDataUnit.setRegisterType (d : QModbusDataUnit) (t : RegisterType) : QModbusDataUnit :=
  { d with registerType := t }

/-- Modelled from the spec: a response PDU is a function code with a payload
byte sequence. -/
structure QModbusResponse where
  functionCode : Nat
  data : List Nat
deriving DecidableEq, Repr

/-- Modelled from the spec: dataSize is the payload length. -/
def QModbusResponse.dataSize (r : QModbusResponse) : Nat :=
  r.data.length

/-- Modelled from the spec: a response is an exception when the top bit of the
function code is set (code at least 0x80). -/
def QModbusResponse.isException (r : QModbusResponse) : Bool :=
  decide (0x80 ≤ r.functionCode)

/-- Modelled from the spec: the structural validity check of a PDU requires a
non-zero function code. -/
def QModbusResponse.pduValid (r : QModbusResponse) : Bool :=
  decide (r.functionCode ≠ 0)

/-- Modelled from the spec: the per-function-code minimum payload size of a
response, as defined by the protocol: byte-count prefixed read responses need
the count byte plus at least one data byte, the fixed-size write responses
carry two 16-bit fields. -/
def minimumDataSize (r : QModbusResponse) : Nat :=
  if r.functionCode = ReadCoils then 2
  else if r.functionCode = ReadDiscreteInputs then 2
  else if r.functionCode = ReadHoldingRegisters then 2
  else if r.functionCode = ReadInputRegisters then 2
  else if r.functionCode = WriteSingleCoil then 4
  else if r.functionCode = WriteSingleRegister then 4
  else if r.functionCode = WriteMultipleCoils then 4
  else if r.functionCode = WriteMultipleRegisters then 4
  else if r.functionCode = ReadWriteMultipleRegisters then 2
  else 0

/-- Modelled from the spec: a request PDU, function code plus payload bytes. -/
structure QModbusRequest where
  functionCode : Nat
  data : List Nat
deriving DecidableEq, Repr

/-- Modelled from the spec: the default-constructed, invalid and empty request
PDU, function code 0 and no payload. -/
def QModbusRequest.empty : QModbusRequest :=
  ⟨0, []⟩

/-- Big-endian serialization of one 16-bit field into two bytes. -/
def u16be (v : Nat) : List Nat :=
  [v % 65536 / 256, v % 256]

/-- The static helper isValid of qmodbusclient.cpp: the response must pass its
own structural check, must not be an exception, and must carry the expected
function code. -/
def isValid (response : QModbusResponse) (fc : Nat) : Bool :=
  response.pduValid && !response.isException && decide (response.functionCode = fc)

/-- Modelled from the spec: QModbusResponse::decodeData reading two big-endian
16-bit fields from the first four payload bytes; none marks an out-of-range
access. -/
def decodeTwoU16 (payload : List Nat) : Option (Nat × Nat) :=
  match payload.get? 0, payload.get? 1, payload.get? 2, payload.get? 3 with
  | some b0, some b1, some b2, some b3 =>
      some (256 * (b0 % 256) + b1 % 256, 256 * (b2 % 256) + b3 % 256)
  | _, _, _, _ => none

/-- The inner bit loop of the coil decoders: consume up to eight bits of one
byte LSB-first, writing a 0 or 1 value per coil while the coil counter stays
below the requested value count. The fuel argument counts the bits still to
consume, the bit argument is the current bit index within the byte. -/
def unpackBitsOfByte (b vc : Nat) : Nat → Nat → List Nat → Nat → List Nat × Nat
  | 0, _, vs, coil => (vs, coil)
  | k + 1, bit, vs, coil =>
      if coil < vc then
        unpackBitsOfByte b vc k (bit + 1) (vs.set coil ((b >>> bit) % 2)) (coil + 1)
      else (vs, coil)

/-- The outer loop of the coil decoders: consume the payload bytes after the
byte-count header in order, eight bits per byte. -/
def unpackBytes (vc : Nat) : List Nat → List Nat → Nat → List Nat
  | [], vs, _ => vs
  | b :: rest, vs, coil =>
      let p := unpackBitsOfByte (b % 256) vc 8 0 vs coil
      unpackBytes vc rest p.1 p.2

/-- The register decoders read itemCount big-endian 16-bit values in order
from the payload after the byte-count header; the byte-count cross-check has
already guaranteed that exactly 2 times itemCount bytes are present, so the
default 0 of getD is never relied upon for accepted responses. -/
def readU16s (bytes : List Nat) (itemCount : Nat) : List Nat :=
  (List.range itemCount).map fun i => 256 * (bytes.getD (2 * i) 0 % 256) + bytes.getD (2 * i + 1) 0 % 256

/-- QModbusClientPrivate::processReadCoilsResponse. -/
def processReadCoilsResponse (response : QModbusResponse)
    (data : Option QModbusDataUnit) : Option (Bool × Option QModbusDataUnit) :=
  if isValid response ReadCoils = false then some (false, data)
  else if response.dataSize < minimumDataSize response then some (false, data)
  else
    match response.data.get? 0 with
    | none => none
    | some b0 =>
        let byteCount := b0 % 256
        if response.data.length - 1 ≠ byteCount then some (false, data)
        else
          match data with
          | none => some (true, none)
          | some du =>
              let values :=
                unpackBytes du.valueCount (response.data.drop 1)
                  (List.replicate du.valueCount 0) 0
              some (true, some (du.setValues values))

/-- QModbusClientPrivate::processReadDiscreteInputsResponse. -/
def processReadDiscreteInputsResponse (response : QModbusResponse)
    (data : Option QModbusDataUnit) : Option (Bool × Option QModbusDataUnit) :=
  if isValid response ReadDiscreteInputs = false then some (false, data)
  else if response.dataSize < minimumDataSize response then some (false, data)
  else
    match response.data.get? 0 with
    | none => none
    | some b0 =>
        let byteCount := b0 % 256
        if response.data.length - 1 ≠ byteCount then some (false, data)
        else
          match data with
          | none => some (true, none)
          | some du =>
              let values :=
                unpackBytes du.valueCount (response.data.drop 1)
                  (List.replicate du.valueCount 0) 0
              some (true, some (du.setValues values))

/-- QModbusClientPrivate::processReadHoldingRegistersResponse. -/
def processReadHoldingRegistersResponse (response : QModbusResponse)
    (data : Option QModbusDataUnit) : Option (Bool × Option QModbusDataUnit) :=
  if isValid response ReadHoldingRegisters = false then some (false, data)
  else if response.dataSize < minimumDataSize response then some (false, data)
  else
    match response.data.get? 0 with
    | none => none
    | some b0 =>
        let byteCount := b0 % 256
        if response.dataSize - 1 ≠ byteCount then some (false, data)
        else if byteCount % 2 ≠ 0 then some (false, data)
        else
          let itemCount := byteCount / 2
          let values := readU16s (response.data.drop 1) itemCount
          match data with
          | none => some (true, none)
          | some du =>
              some (true, some (((du.setValues values).setValueCount
                values.length).setRegisterType RegisterType.HoldingRegisters))

/-- QModbusClientPrivate::processReadInputRegistersResponse. -/
def processReadInputRegistersResponse (response : QModbusResponse)
    (data : Option QModbusDataUnit) : Option (Bool × Option QModbusDataUnit) :=
  if isValid response ReadInputRegisters = false then some (false, data)
  else if response.dataSize < minimumDataSize response then some (false, data)
  else
    match response.data.get? 0 with
    | none => none
    | some b0 =>
        let byteCount := b0 % 256
        if response.dataSize - 1 ≠ byteCount then some (false, data)
        else if byteCount % 2 ≠ 0 then some (false, data)
        else
          let itemCount := byteCount / 2
          let values := readU16s (response.data.drop 1) itemCount
          match data with
          | none => some (true, none)
          | some du =>
              some (true, some (((du.setValues values).setValueCount
                values.length).setRegisterType RegisterType.InputRegisters))

/-- QModbusClientPrivate::processWriteSingleCoilResponse. -/
def processWriteSingleCoilResponse (response : QModbusResponse)
    (data : Option QModbusDataUnit) : Option (Bool × Option QModbusDataUnit) :=
  if isValid response WriteSingleCoil = false then some (false, data)
  else if response.dataSize ≠ minimumDataSize response then some (false, data)
  else
    match decodeTwoU16 response.data with
    | none => none
    | some (address, value) =>
        if value ≠ CoilOff ∧ value ≠ CoilOn then some (false, data)
        else
          match data with
          | none => some (true, none)
          | some du =>
              some (true, some ((((du.setValueCount 1).setStartAddress
                address).setValues [value]).setRegisterType RegisterType.Coils))

/-- QModbusClientPrivate::processWriteSingleRegisterResponse. -/
def processWriteSingleRegisterResponse (response : QModbusResponse)
    (data : Option QModbusDataUnit) : Option (Bool × Option QModbusDataUnit) :=
  if isValid response WriteSingleRegister = false then some (false, data)
  else if response.dataSize ≠ minimumDataSize response then some (false, data)
  else
    match decodeTwoU16 response.data with
    | none => none
    | some (address, value) =>
        match data with
        | none => some (true, none)
        | some du =>
            some (true, some ((((du.setValueCount 1).setStartAddress
              address).setValues [value]).setRegisterType RegisterType.HoldingRegisters))

/-- QModbusClientPrivate::processWriteMultipleCoilsResponse. -/
def processWriteMultipleCoilsResponse (response : QModbusResponse)
    (data : Option QModbusDataUnit) : Option (Bool × Option QModbusDataUnit) :=
  if isValid response WriteMultipleCoils = false then some (false, data)
  else if response.dataSize ≠ minimumDataSize response then some (false, data)
  else
    match decodeTwoU16 response.data with
    | none => none
    | some (address, count) =>
        match data with
        | none => some (true, none)
        | some du =>
            some (true, some (((du.setValueCount count).setStartAddress
              address).setRegisterType RegisterType.Coils))

/-- QModbusClientPrivate::processWriteMultipleRegistersResponse. -/
def processWriteMultipleRegistersResponse (response : QModbusResponse)
    (data : Option QModbusDataUnit) : Option (Bool × Option QModbusDataUnit) :=
  if isValid response WriteMultipleRegisters = false then some (false, data)
  else if response.dataSize ≠ minimumDataSize response then some (false, data)
  else
    match decodeTwoU16 response.data with
    | none => none
    | some (address, count) =>
        if count < 1 ∨ 123 < count then some (false, data)
        else
          match data with
          | none => some (true, none)
          | some du =>
              some (true, some (((du.setStartAddress address).setValueCount
                count).setRegisterType RegisterType.HoldingRegisters))

/-- QModbusClientPrivate::processReadWriteMultipleRegistersResponse. -/
def processReadWriteMultipleRegistersResponse (response : QModbusResponse)
    (data : Option QModbusDataUnit) : Option (Bool × Option QModbusDataUnit) :=
  if isValid response ReadWriteMultipleRegisters = false then some (false, data)
  else if response.dataSize < minimumDataSize response then some (false, data)
  else
    match response.data.get? 0 with
    | none => none
    | some b0 =>
        let byteCount := b0 % 256
        if response.data.length - 1 ≠ byteCount then some (false, data)
        else if byteCount % 2 ≠ 0 then some (false, data)
        else
          let itemCount := byteCount / 2
          let values := readU16s (response.data.drop 1) itemCount
          match data with
          | none => some (true, none)
          | some du =>
              some (true, some (((du.setValues values).setValueCount
                values.length).setRegisterType RegisterType.HoldingRegisters))

/-- QModbusClient::processPrivateResponse, the extension hook: the default
implementation ignores the response and reports failure. -/
def processPrivateResponse (_response : QModbusResponse)
    (data : Option QModbusDataUnit) : Option (Bool × Option QModbusDataUnit) :=
  some (false, data)

/-- The targets of the dispatch switch in
QModbusClientPrivate::processResponse. -/
inductive ResponseHandler where
  | readCoils
  | readDiscreteInputs
  | readHoldingRegisters
  | readInputRegisters
  | writeSingleCoil
  | writeSingleRegister
  | writeMultipleCoils
  | writeMultipleRegisters
  | readWriteMultipleRegisters
  | privateResponse
deriving DecidableEq, Repr

/-- The case structure of the dispatch switch in
QModbusClientPrivate::processResponse, including its fall-through groups:
ReadExceptionStatus, Diagnostics, GetCommEventCounter and GetCommEventLog
share the WriteMultipleCoils case, and ReportServerId, ReadFileRecord,
WriteFileRecord and MaskWriteRegister share the ReadWriteMultipleRegisters
case; ReadFifoQueue, EncapsulatedInterfaceTransport and all other codes fall
to the default branch, the private-response hook. -/
def dispatchHandler (fc : Nat) : ResponseHandler :=
  if fc = ReadCoils then ResponseHandler.readCoils
  else if fc = ReadDiscreteInputs then ResponseHandler.readDiscreteInputs
  else if fc = ReadHoldingRegisters then ResponseHandler.readHoldingRegisters
  else if fc = ReadInputRegisters then ResponseHandler.readInputRegisters
  else if fc = WriteSingleCoil then ResponseHandler.writeSingleCoil
  else if fc = WriteSingleRegister then ResponseHandler.writeSingleRegister
  else if fc = ReadExceptionStatus ∨ fc = Diagnostics ∨ fc = GetCommEventCounter
      ∨ fc = GetCommEventLog ∨ fc = WriteMultipleCoils then
    ResponseHandler.writeMultipleCoils
  else if fc = WriteMultipleRegisters then ResponseHandler.writeMultipleRegisters
  else if fc = ReportServerId ∨ fc = ReadFileRecord ∨ fc = WriteFileRecord
      ∨ fc = MaskWriteRegister ∨ fc = ReadWriteMultipleRegisters then
    ResponseHandler.readWriteMultipleRegisters
  else ResponseHandler.privateResponse

/-- Application of a dispatch target to a response and out unit. -/
def applyHandler (h : ResponseHandler) (response : QModbusResponse)
    (data : Option QModbusDataUnit) : Option (Bool × Option QModbusDataUnit) :=
  match h with
  | ResponseHandler.readCoils => processReadCoilsResponse response data
  | ResponseHandler.readDiscreteInputs => processReadDiscreteInputsResponse response data
  | ResponseHandler.readHoldingRegisters => processReadHoldingRegistersResponse response data
  | ResponseHandler.readInputRegisters => processReadInputRegistersResponse response data
  | ResponseHandler.writeSingleCoil => processWriteSingleCoilResponse response data
  | ResponseHandler.writeSingleRegister => processWriteSingleRegisterResponse response data
  | ResponseHandler.writeMultipleCoils => processWriteMultipleCoilsResponse response data
  | ResponseHandler.writeMultipleRegisters => processWriteMultipleRegistersResponse response data
  | ResponseHandler.readWriteMultipleRegisters =>
      processReadWriteMultipleRegistersResponse response data
  | ResponseHandler.privateResponse => processPrivateResponse response data

/-- QModbusClientPrivate::processResponse: dispatch on the function code of
the response. -/
def processResponse (response : QModbusResponse)
    (data : Option QModbusDataUnit) : Option (Bool × Option QModbusDataUnit) :=
  applyHandler (dispatchHandler response.functionCode) response data

/-- One packed byte of the multiple-coil write of
QModbusClientPrivate::createWriteRequest: bit i of the byte is the coil value
at the running 8-bit address cursor. The cursor in the C++ code is a quint8,
so the index read from the data unit is the total bit index reduced mod 256. -/
def coilByte (data : QModbusDataUnit) (base : Nat) : Nat :=
  (List.range 8).foldl
    (fun acc bit => acc + (if data.value ((base + bit) % 256) ≠ 0 then 2 ^ bit else 0)) 0

/-- QModbusClientPrivate::createWriteRequest. The byte counts pass through
quint8, hence the mod 256; the serialized layouts of the request constructor
calls follow the layouts of the spec (the constructor itself is not part of
src/). -/
def createWriteRequest (data : QModbusDataUnit) : QModbusRequest :=
  match data.registerType with
  | RegisterType.Coils =>
      if data.valueCount = 1 then
        ⟨WriteSingleCoil, u16be data.startAddress ++
          u16be (if data.value 0 = 0 then CoilOff else CoilOn)⟩
      else
        let byteCount :=
          (data.valueCount / 8 % 256 + if data.valueCount % 8 ≠ 0 then 1 else 0) % 256
        let bytes := (List.range byteCount).map fun i => coilByte data (8 * i)
        ⟨WriteMultipleCoils, u16be data.startAddress ++ u16be data.valueCount ++
          [byteCount] ++ bytes⟩
  | RegisterType.HoldingRegisters =>
      if data.valueCount = 1 then
        ⟨WriteSingleRegister, u16be data.startAddress ++ u16be (data.value 0)⟩
      else
        let byteCount := data.valueCount * 2 % 256
        ⟨WriteMultipleRegisters, u16be data.startAddress ++ u16be data.valueCount ++
          [byteCount] ++ (data.values.map u16be).flatten⟩
  | _ => QModbusRequest.empty

/-- QModbusClientPrivate::createRWRequest: the guard in the source rejects the
pair only when neither the read unit nor the write unit has kind
HoldingRegisters. -/
def createRWRequest (read write : QModbusDataUnit) : QModbusRequest :=
  if read.registerType ≠ RegisterType.HoldingRegisters
      ∧ write.registerType ≠ RegisterType.HoldingRegisters then
    QModbusRequest.empty
  else
    let byteCount := write.valueCount * 2 % 256
    ⟨ReadWriteMultipleRegisters, u16be read.startAddress ++ u16be read.valueCount ++
      u16be write.startAddress ++ u16be write.valueCount ++ [byteCount] ++
      (write.values.map u16be).flatten⟩

/-- The reply kind tag of a queue element. -/
inductive ReplyType where
  | Common
  | Raw
deriving DecidableEq, Repr

/-- The reply error kinds the completion step can set. -/
inductive ReplyErrorKind where
  | ProtocolError
  | UnknownError
deriving DecidableEq, Repr

/-- Modelled from the spec: the pending-request context handed to the
completion step, the reply kind tag and the originating data unit. -/
structure QueueElement where
  replyType : ReplyType
  unit : QModbusDataUnit
deriving DecidableEq, Repr

/-- The terminal mutation the completion step performs on the reply sink:
either an error of some kind, or finished, carrying the decoded result when
one was set. -/
inductive ReplyOutcome where
  | error (kind : ReplyErrorKind)
  | finished (result : Option QModbusDataUnit)
deriving DecidableEq, Repr

/-- The observable effect of one run of the completion step on the reply
sink: the raw result attached first, whether the decoder dispatch was
invoked, and the terminal outcome. -/
structure ReplyEffect where
  rawResult : QModbusResponse
  decodeAttempted : Bool
  outcome : ReplyOutcome
deriving DecidableEq, Repr

/-- QModbusClientPrivate::processQueueElement: attach the raw response, then
handle exception responses, then Raw-kind replies, and otherwise decode into
a working copy of the originating data unit. -/
def processQueueElement (pdu : QModbusResponse) (element : QueueElement) :
    Option ReplyEffect :=
  if pdu.isException then
    some ⟨pdu, false, ReplyOutcome.error ReplyErrorKind.ProtocolError⟩
  else if element.replyType = ReplyType.Raw then
    some ⟨pdu, false, ReplyOutcome.finished none⟩
  else
    match processResponse pdu (some element.unit) with
    | none => none
    | some (ok, unit) =>
        if ok then some ⟨pdu, true, ReplyOutcome.finished unit⟩
        else some ⟨pdu, true, ReplyOutcome.error ReplyErrorKind.UnknownError⟩

/-! Helper lemmas. -/

lemma get?_isSome_of_lt {l : List Nat} {i : Nat} (h : i < l.length) : (l.get? i).isSome := by
  cases h' : l.get? i with
  | none => rw [List.get?_eq_none] at h'; omega
  | some b => rfl

lemma decodeTwoU16_isSome {payload : List Nat} (h : 4 ≤ payload.length) :
    (decodeTwoU16 payload).isSome := by
  obtain ⟨b0, h0⟩ := Option.isSome_iff_exists.mp (get?_isSome_of_lt (show 0 < payload.length by omega))
  obtain ⟨b1, h1⟩ := Option.isSome_iff_exists.mp (get?_isSome_of_lt (show 1 < payload.length by omega))
  obtain ⟨b2, h2⟩ := Option.isSome_iff_exists.mp (get?_isSome_of_lt (show 2 < payload.length by omega))
  obtain ⟨b3, h3⟩ := Option.isSome_iff_exists.mp (get?_isSome_of_lt (show 3 < payload.length by omega))
  unfold decodeTwoU16
  rw [h0, h1, h2, h3]
  rfl

lemma isValid_functionCode {r : QModbusResponse} {fc : Nat} (h : isValid r fc = true) :
    r.functionCode = fc := by
  unfold isValid at h
  simp only [Bool.and_eq_true, decide_eq_true_eq] at h
  exact h.2

lemma unpackBitsOfByte_length (b vc : Nat) :
    ∀ (k bit : Nat) (vs : List Nat) (coil : Nat),
      (unpackBitsOfByte b vc k bit vs coil).1.length = vs.length := by
  intro k
  induction k with
  | zero => intro bit vs coil; rfl
  | succ k ih =>
      intro bit vs coil
      simp only [unpackBitsOfByte]
      split
      · rw [ih]; simp
      · rfl

lemma unpackBitsOfByte_coil_le (b vc : Nat) :
    ∀ (k bit : Nat) (vs : List Nat) (coil : Nat),
      (unpackBitsOfByte b vc k bit vs coil).2 ≤ coil + k := by
  intro k
  induction k with
  | zero => intro bit vs coil; simp [unpackBitsOfByte]
  | succ k ih =>
      intro bit vs coil
      simp only [unpackBitsOfByte]
      split
      · have := ih (bit + 1) (vs.set coil ((b >>> bit) % 2)) (coil + 1)
        omega
      · simp

lemma unpackBitsOfByte_coil_eq (b vc : Nat) :
    ∀ (k bit : Nat) (vs : List Nat) (coil : Nat), coil + k ≤ vc →
      (unpackBitsOfByte b vc k bit vs coil).2 = coil + k := by
  intro k
  induction k with
  | zero => intro bit vs coil _; rfl
  | succ k ih =>
      intro bit vs coil hle
      simp only [unpackBitsOfByte]
      split
      · have := ih (bit + 1) (vs.set coil ((b >>> bit) % 2)) (coil + 1) (by omega)
        omega
      · omega

lemma unpackBitsOfByte_get?_ge (b vc : Nat) :
    ∀ (k bit : Nat) (vs : List Nat) (coil j : Nat), coil + k ≤ j →
      (unpackBitsOfByte b vc k bit vs coil).1.get? j = vs.get? j := by
  intro k
  induction k with
  | zero => intro bit vs coil j _; rfl
  | succ k ih =>
      intro bit vs coil j hj
      simp only [unpackBitsOfByte]
      split
      · rw [ih (bit + 1) (vs.set coil ((b >>> bit) % 2)) (coil + 1) j (by omega)]
        rw [List.get?_eq_getElem?, List.get?_eq_getElem?,
          List.getElem?_set_ne (by omega : coil ≠ j)]
      · rfl

lemma unpackBytes_length (vc : Nat) :
    ∀ (bytes vs : List Nat) (coil : Nat),
      (unpackBytes vc bytes vs coil).length = vs.length := by
  intro bytes
  induction bytes with
  | nil => intro vs coil; rfl
  | cons b rest ih =>
      intro vs coil
      simp only [unpackBytes]
      rw [ih, unpackBitsOfByte_length]

lemma unpackBytes_get?_ge (vc : Nat) :
    ∀ (bytes vs : List Nat) (coil j : Nat), coil + 8 * bytes.length ≤ j →
      (unpackBytes vc bytes vs coil).get? j = vs.get? j := by
  intro bytes
  induction bytes with
  | nil => intro vs coil j _; rfl
  | cons b rest ih =>
      intro vs coil j hj
      simp only [unpackBytes, List.length_cons] at hj ⊢
      have hcle := unpackBitsOfByte_coil_le (b % 256) vc 8 0 vs coil
      rw [ih _ _ j (by omega)]
      exact unpackBitsOfByte_get?_ge (b % 256) vc 8 0 vs coil j (by omega)

lemma bool_eq_true_of_not_eq_false {b : Bool} (h : ¬ b = false) : b = true := by
  cases b
  · exact absurd rfl h
  · rfl

lemma processReadCoilsResponse_isSome (r : QModbusResponse) (d : Option QModbusDataUnit) :
    (processReadCoilsResponse r d).isSome := by
  unfold processReadCoilsResponse
  split
  · rfl
  · split
    · rfl
    · rename_i hvalid hsize
      have hfc : r.functionCode = ReadCoils :=
        isValid_functionCode (bool_eq_true_of_not_eq_false hvalid)
      have hmin : minimumDataSize r = 2 := by simp [minimumDataSize, hfc]
      rw [QModbusResponse.dataSize, hmin] at hsize
      split
      · rename_i heq
        rw [List.get?_eq_none] at heq
        exfalso; omega
      · rename_i b0 heq
        repeat' (first | split | dsimp only)
        all_goals rfl

lemma processReadDiscreteInputsResponse_isSome (r : QModbusResponse)
    (d : Option QModbusDataUnit) : (processReadDiscreteInputsResponse r d).isSome := by
  unfold processReadDiscreteInputsResponse
  split
  · rfl
  · split
    · rfl
    · rename_i hvalid hsize
      have hfc : r.functionCode = ReadDiscreteInputs :=
        isValid_functionCode (bool_eq_true_of_not_eq_false hvalid)
      have hmin : minimumDataSize r = 2 := by simp [minimumDataSize, hfc, ReadDiscreteInputs, ReadCoils]
      rw [QModbusResponse.dataSize, hmin] at hsize
      split
      · rename_i heq
        rw [List.get?_eq_none] at heq
        exfalso; omega
      · rename_i b0 heq
        repeat' (first | split | dsimp only)
        all_goals rfl

lemma processReadHoldingRegistersResponse_isSome (r : QModbusResponse)
    (d : Option QModbusDataUnit) : (processReadHoldingRegistersResponse r d).isSome := by
  unfold processReadHoldingRegistersResponse
  split
  · rfl
  · split
    · rfl
    · rename_i hvalid hsize
      have hfc : r.functionCode = ReadHoldingRegisters :=
        isValid_functionCode (bool_eq_true_of_not_eq_false hvalid)
      have hmin : minimumDataSize r = 2 := by
        simp [minimumDataSize, hfc, ReadHoldingRegisters, ReadCoils, ReadDiscreteInputs]
      rw [QModbusResponse.dataSize, hmin] at hsize
      split
      · rename_i heq
        rw [List.get?_eq_none] at heq
        exfalso; omega
      · rename_i b0 heq
        repeat' (first | split | dsimp only)
        all_goals rfl

lemma processReadInputRegistersResponse_isSome (r : QModbusResponse)
    (d : Option QModbusDataUnit) : (processReadInputRegistersResponse r d).isSome := by
  unfold processReadInputRegistersResponse
  split
  · rfl
  · split
    · rfl
    · rename_i hvalid hsize
      have hfc : r.functionCode = ReadInputRegisters :=
        isValid_functionCode (bool_eq_true_of_not_eq_false hvalid)
      have hmin : minimumDataSize r = 2 := by
        simp [minimumDataSize, hfc, ReadInputRegisters, ReadCoils, ReadDiscreteInputs,
          ReadHoldingRegisters]
      rw [QModbusResponse.dataSize, hmin] at hsize
      split
      · rename_i heq
        rw [List.get?_eq_none] at heq
        exfalso; omega
      · rename_i b0 heq
        repeat' (first | split | dsimp only)
        all_goals rfl

lemma processReadWriteMultipleRegistersResponse_isSome (r : QModbusResponse)
    (d : Option QModbusDataUnit) :
    (processReadWriteMultipleRegistersResponse r d).isSome := by
  unfold processReadWriteMultipleRegistersResponse
  split
  · rfl
  · split
    · rfl
    · rename_i hvalid hsize
      have hfc : r.functionCode = ReadWriteMultipleRegisters :=
        isValid_functionCode (bool_eq_true_of_not_eq_false hvalid)
      have hmin : minimumDataSize r = 2 := by
        simp [minimumDataSize, hfc, ReadWriteMultipleRegisters, ReadCoils, ReadDiscreteInputs,
          ReadHoldingRegisters, ReadInputRegisters, WriteSingleCoil, WriteSingleRegister,
          WriteMultipleCoils, WriteMultipleRegisters]
      rw [QModbusResponse.dataSize, hmin] at hsize
      split
      · rename_i heq
        rw [List.get?_eq_none] at heq
        exfalso; omega
      · rename_i b0 heq
        repeat' (first | split | dsimp only)
        all_goals rfl

lemma processWriteSingleCoilResponse_isSome (r : QModbusResponse)
    (d : Option QModbusDataUnit) : (processWriteSingleCoilResponse r d).isSome := by
  unfold processWriteSingleCoilResponse
  split
  · rfl
  · split
    · rfl
    · rename_i hvalid hsize
      have hfc : r.functionCode = WriteSingleCoil :=
        isValid_functionCode (bool_eq_true_of_not_eq_false hvalid)
      have hmin : minimumDataSize r = 4 := by
        simp [minimumDataSize, hfc, WriteSingleCoil, ReadCoils, ReadDiscreteInputs,
          ReadHoldingRegisters, ReadInputRegisters]
      rw [QModbusResponse.dataSize, hmin] at hsize
      split
      · rename_i heq
        have hds := decodeTwoU16_isSome (show 4 ≤ r.data.length by omega)
        rw [heq] at hds
        simp at hds
      · rename_i address value heq
        repeat' (first | split | dsimp only)
        all_goals rfl

lemma processWriteSingleRegisterResponse_isSome (r : QModbusResponse)
    (d : Option QModbusDataUnit) : (processWriteSingleRegisterResponse r d).isSome := by
  unfold processWriteSingleRegisterResponse
  split
  · rfl
  · split
    · rfl
    · rename_i hvalid hsize
      have hfc : r.functionCode = WriteSingleRegister :=
        isValid_functionCode (bool_eq_true_of_not_eq_false hvalid)
      have hmin : minimumDataSize r = 4 := by
        simp [minimumDataSize, hfc, WriteSingleRegister, ReadCoils, ReadDiscreteInputs,
          ReadHoldingRegisters, ReadInputRegisters, WriteSingleCoil]
      rw [QModbusResponse.dataSize, hmin] at hsize
      split
      · rename_i heq
        have hds := decodeTwoU16_isSome (show 4 ≤ r.data.length by omega)
        rw [heq] at hds
        simp at hds
      · rename_i address value heq
        repeat' (first | split | dsimp only)
        all_goals rfl

lemma processWriteMultipleCoilsResponse_isSome (r : QModbusResponse)
    (d : Option QModbusDataUnit) : (processWriteMultipleCoilsResponse r d).isSome := by
  unfold processWriteMultipleCoilsResponse
  split
  · rfl
  · split
    · rfl
    · rename_i hvalid hsize
      have hfc : r.functionCode = WriteMultipleCoils :=
        isValid_functionCode (bool_eq_true_of_not_eq_false hvalid)
      have hmin : minimumDataSize r = 4 := by
        simp [minimumDataSize, hfc, WriteMultipleCoils, ReadCoils, ReadDiscreteInputs,
          ReadHoldingRegisters, ReadInputRegisters, WriteSingleCoil, WriteSingleRegister]
      rw [QModbusResponse.dataSize, hmin] at hsize
      split
      · rename_i heq
        have hds := decodeTwoU16_isSome (show 4 ≤ r.data.length by omega)
        rw [heq] at hds
        simp at hds
      · rename_i address count heq
        repeat' (first | split | dsimp only)
        all_goals rfl

lemma processWriteMultipleRegistersResponse_isSome (r : QModbusResponse)
    (d : Option QModbusDataUnit) : (processWriteMultipleRegistersResponse r d).isSome := by
  unfold processWriteMultipleRegistersResponse
  split
  · rfl
  · split
    · rfl
    · rename_i hvalid hsize
      have hfc : r.functionCode = WriteMultipleRegisters :=
        isValid_functionCode (bool_eq_true_of_not_eq_false hvalid)
      have hmin : minimumDataSize r = 4 := by
        simp [minimumDataSize, hfc, WriteMultipleRegisters, ReadCoils, ReadDiscreteInputs,
          ReadHoldingRegisters, ReadInputRegisters, WriteSingleCoil, WriteSingleRegister,
          WriteMultipleCoils]
      rw [QModbusResponse.dataSize, hmin] at hsize
      split
      · rename_i heq
        have hds := decodeTwoU16_isSome (show 4 ≤ r.data.length by omega)
        rw [heq] at hds
        simp at hds
      · rename_i address count heq
        repeat' (first | split | dsimp only)
        all_goals rfl

lemma applyHandler_isSome (h : ResponseHandler) (r : QModbusResponse)
    (d : Option QModbusDataUnit) : (applyHandler h r d).isSome := by
  cases h with
  | readCoils => exact processReadCoilsResponse_isSome r d
  | readDiscreteInputs => exact processReadDiscreteInputsResponse_isSome r d
  | readHoldingRegisters => exact processReadHoldingRegistersResponse_isSome r d
  | readInputRegisters => exact processReadInputRegistersResponse_isSome r d
  | writeSingleCoil => exact processWriteSingleCoilResponse_isSome r d
  | writeSingleRegister => exact processWriteSingleRegisterResponse_isSome r d
  | writeMultipleCoils => exact processWriteMultipleCoilsResponse_isSome r d
  | writeMultipleRegisters => exact processWriteMultipleRegistersResponse_isSome r d
  | readWriteMultipleRegisters => exact processReadWriteMultipleRegistersResponse_isSome r d
  | privateResponse => rfl

lemma processResponse_isSome (r : QModbusResponse) (d : Option QModbusDataUnit) :
    (processResponse r d).isSome :=
  applyHandler_isSome (dispatchHandler r.functionCode) r d

lemma processReadCoilsResponse_false {r : QModbusResponse} {d d' : Option QModbusDataUnit}
    (h : processReadCoilsResponse r d = some (false, d')) : d' = d := by
  unfold processReadCoilsResponse at h
  repeat' (first | split at h | dsimp only at h)
  all_goals simp_all

lemma processReadCoilsResponse_true_len {r : QModbusResponse} {du d' : QModbusDataUnit}
    (h : processReadCoilsResponse r (some du) = some (true, some d')) :
    d'.values.length = d'.valueCount := by
  unfold processReadCoilsResponse at h
  repeat' (first | split at h | dsimp only at h)
  all_goals simp_all [QModbusDataUnit.setValues, unpackBytes_length]
  all_goals subst h
  all_goals simp [unpackBytes_length]

lemma processReadDiscreteInputsResponse_false {r : QModbusResponse}
    {d d' : Option QModbusDataUnit}
    (h : processReadDiscreteInputsResponse r d = some (false, d')) : d' = d := by
  unfold processReadDiscreteInputsResponse at h
  repeat' (first | split at h | dsimp only at h)
  all_goals simp_all

lemma processReadHoldingRegistersResponse_false {r : QModbusResponse}
    {d d' : Option QModbusDataUnit}
    (h : processReadHoldingRegistersResponse r d = some (false, d')) : d' = d := by
  unfold processReadHoldingRegistersResponse at h
  repeat' (first | split at h | dsimp only at h)
  all_goals simp_all

lemma processReadInputRegistersResponse_false {r : QModbusResponse}
    {d d' : Option QModbusDataUnit}
    (h : processReadInputRegistersResponse r d = some (false, d')) : d' = d := by
  unfold processReadInputRegistersResponse at h
  repeat' (first | split at h | dsimp only at h)
  all_goals simp_all

lemma processReadWriteMultipleRegistersResponse_false {r : QModbusResponse}
    {d d' : Option QModbusDataUnit}
    (h : processReadWriteMultipleRegistersResponse r d = some (false, d')) : d' = d := by
  unfold processReadWriteMultipleRegistersResponse at h
  repeat' (first | split at h | dsimp only at h)
  all_goals simp_all

lemma processWriteSingleCoilResponse_false {r : QModbusResponse}
    {d d' : Option QModbusDataUnit}
    (h : processWriteSingleCoilResponse r d = some (false, d')) : d' = d := by
  unfold processWriteSingleCoilResponse at h
  repeat' (first | split at h | dsimp only at h)
  all_goals simp_all

lemma processWriteSingleRegisterResponse_false {r : QModbusResponse}
    {d d' : Option QModbusDataUnit}
    (h : processWriteSingleRegisterResponse r d = some (false, d')) : d' = d := by
  unfold processWriteSingleRegisterResponse at h
  repeat' (first | split at h | dsimp only at h)
  all_goals simp_all

lemma processWriteMultipleCoilsResponse_false {r : QModbusResponse}
    {d d' : Option QModbusDataUnit}
    (h : processWriteMultipleCoilsResponse r d = some (false, d')) : d' = d := by
  unfold processWriteMultipleCoilsResponse at h
  repeat' (first | split at h | dsimp only at h)
  all_goals simp_all

lemma processWriteMultipleRegistersResponse_false {r : QModbusResponse}
    {d d' : Option QModbusDataUnit}
    (h : processWriteMultipleRegistersResponse r d = some (false, d')) : d' = d := by
  unfold processWriteMultipleRegistersResponse at h
  repeat' (first | split at h | dsimp only at h)
  all_goals simp_all

lemma processPrivateResponse_false {r : QModbusResponse} {d d' : Option QModbusDataUnit}
    (h : processPrivateResponse r d = some (false, d')) : d' = d := by
  simp only [processPrivateResponse, Option.some.injEq, Prod.mk.injEq, true_and] at h
  exact h.symm

lemma processReadDiscreteInputsResponse_true_len {r : QModbusResponse}
    {du d' : QModbusDataUnit}
    (h : processReadDiscreteInputsResponse r (some du) = some (true, some d')) :
    d'.values.length = d'.valueCount := by
  unfold processReadDiscreteInputsResponse at h
  repeat' (first | split at h | dsimp only at h)
  all_goals simp_all [QModbusDataUnit.setValues, unpackBytes_length]
  all_goals subst h
  all_goals simp [unpackBytes_length]

lemma processReadHoldingRegistersResponse_true_len {r : QModbusResponse}
    {du d' : QModbusDataUnit}
    (h : processReadHoldingRegistersResponse r (some du) = some (true, some d')) :
    d'.values.length = d'.valueCount := by
  unfold processReadHoldingRegistersResponse at h
  repeat' (first | split at h | dsimp only at h)
  all_goals simp_all [QModbusDataUnit.setValues, QModbusDataUnit.setValueCount,
    QModbusDataUnit.setRegisterType]
  all_goals subst h
  all_goals simp

lemma processReadInputRegistersResponse_true_len {r : QModbusResponse}
    {du d' : QModbusDataUnit}
    (h : processReadInputRegistersResponse r (some du) = some (true, some d')) :
    d'.values.length = d'.valueCount := by
  unfold processReadInputRegistersResponse at h
  repeat' (first | split at h | dsimp only at h)
  all_goals simp_all [QModbusDataUnit.setValues, QModbusDataUnit.setValueCount,
    QModbusDataUnit.setRegisterType]
  all_goals subst h
  all_goals simp

lemma processReadWriteMultipleRegistersResponse_true_len {r : QModbusResponse}
    {du d' : QModbusDataUnit}
    (h : processReadWriteMultipleRegistersResponse r (some du) = some (true, some d')) :
    d'.values.length = d'.valueCount := by
  unfold processReadWriteMultipleRegistersResponse at h
  repeat' (first | split at h | dsimp only at h)
  all_goals simp_all [QModbusDataUnit.setValues, QModbusDataUnit.setValueCount,
    QModbusDataUnit.setRegisterType]
  all_goals subst h
  all_goals simp

lemma processWriteSingleCoilResponse_true_len {r : QModbusResponse}
    {du d' : QModbusDataUnit}
    (h : processWriteSingleCoilResponse r (some du) = some (true, some d')) :
    d'.values.length = d'.valueCount := by
  unfold processWriteSingleCoilResponse at h
  repeat' (first | split at h | dsimp only at h)
  all_goals simp_all [QModbusDataUnit.setValues, QModbusDataUnit.setValueCount,
    QModbusDataUnit.setStartAddress, QModbusDataUnit.setRegisterType]
  all_goals subst h
  all_goals simp

lemma processWriteSingleRegisterResponse_true_len {r : QModbusResponse}
    {du d' : QModbusDataUnit}
    (h : processWriteSingleRegisterResponse r (some du) = some (true, some d')) :
    d'.values.length = d'.valueCount := by
  unfold processWriteSingleRegisterResponse at h
  repeat' (first | split at h | dsimp only at h)
  all_goals simp_all [QModbusDataUnit.setValues, QModbusDataUnit.setValueCount,
    QModbusDataUnit.setStartAddress, QModbusDataUnit.setRegisterType]
  all_goals subst h
  all_goals simp

/-! Claim theorems. -/

/-- C1: the claim states that every response PDU whose function code has no
built-in decoder (status/diagnostic, comm-event counter/log, server-id,
file-record, mask-write and unknown codes) is routed to the extension hook
processPrivateResponse. The dispatch switch of the source instead falls
through: a Diagnostics (0x08) response is routed to the built-in
WriteMultipleCoils decoder, and a ReportServerId (0x11) response to the
built-in ReadWriteMultipleRegisters decoder, so an unrelated built-in decoder
is invoked and the extension hook is not. -/
theorem C1_diagnostics_routed_to_builtin_decoder :
    dispatchHandler Diagnostics = ResponseHandler.writeMultipleCoils ∧
    dispatchHandler ReportServerId = ResponseHandler.readWriteMultipleRegisters ∧
    ¬ dispatchHandler Diagnostics = ResponseHandler.privateResponse ∧
    ¬ dispatchHandler ReportServerId = ResponseHandler.privateResponse := by
  decide

/-- C2: the claim states that createRWRequest returns a non-empty request only
when both data units have kind HoldingRegisters. The guard in the source only
rejects when neither unit is of kind HoldingRegisters, so a read unit of kind
HoldingRegisters paired with a write unit of kind Coils still produces a
non-empty ReadWriteMultipleRegisters request, contradicting the claim and the
documentation of sendReadWriteRequest in the source itself. -/
theorem C2_mixed_register_kinds_build_nonempty_request :
    (createRWRequest ⟨RegisterType.HoldingRegisters, 0, 1, [7]⟩
        ⟨RegisterType.Coils, 0, 1, [1]⟩).functionCode = ReadWriteMultipleRegisters ∧
    ¬ createRWRequest ⟨RegisterType.HoldingRegisters, 0, 1, [7]⟩
        ⟨RegisterType.Coils, 0, 1, [1]⟩ = QModbusRequest.empty := by
  decide

/-- C3, counterexample: the WriteMultipleCoils acknowledgement decoder accepts
a response with count 2 into a data unit whose values list is empty, and sets
valueCount to 2 without touching values, so the resulting unit violates
values.length = valueCount. -/
theorem C3_counterexample_ack_decoder_breaks_invariant :
    processWriteMultipleCoilsResponse ⟨WriteMultipleCoils, [0, 5, 0, 2]⟩
        (some ⟨RegisterType.Coils, 0, 0, []⟩) =
      some (true, some ⟨RegisterType.Coils, 5, 2, []⟩) ∧
    ¬ ((⟨RegisterType.Coils, 5, 2, []⟩ : QModbusDataUnit).values.length =
        (⟨RegisterType.Coils, 5, 2, []⟩ : QModbusDataUnit).valueCount) := by
  decide

/-- C3, amended: after an accepting decode with a non-null out data unit, the
resulting unit satisfies values.length = valueCount for every decoder except
the two multiple-write acknowledgement decoders (WriteMultipleCoils and
WriteMultipleRegisters), which set valueCount from the response but leave
values untouched. -/
theorem C3_values_length_eq_valueCount (h : ResponseHandler) (r : QModbusResponse)
    (du d' : QModbusDataUnit)
    (h1 : h ≠ ResponseHandler.writeMultipleCoils)
    (h2 : h ≠ ResponseHandler.writeMultipleRegisters)
    (hacc : applyHandler h r (some du) = some (true, some d')) :
    d'.values.length = d'.valueCount := by
  cases h with
  | readCoils => exact processReadCoilsResponse_true_len hacc
  | readDiscreteInputs => exact processReadDiscreteInputsResponse_true_len hacc
  | readHoldingRegisters => exact processReadHoldingRegistersResponse_true_len hacc
  | readInputRegisters => exact processReadInputRegistersResponse_true_len hacc
  | writeSingleCoil => exact processWriteSingleCoilResponse_true_len hacc
  | writeSingleRegister => exact processWriteSingleRegisterResponse_true_len hacc
  | writeMultipleCoils => exact absurd rfl h1
  | writeMultipleRegisters => exact absurd rfl h2
  | readWriteMultipleRegisters => exact processReadWriteMultipleRegistersResponse_true_len hacc
  | privateResponse => simp [applyHandler, processPrivateResponse] at hacc

/-- C3, witness for the amended theorem at a concrete accepted
ReadHoldingRegisters response. -/
theorem C3_values_length_eq_valueCount_witness :
    applyHandler ResponseHandler.readHoldingRegisters ⟨ReadHoldingRegisters, [2, 0, 100]⟩
        (some ⟨RegisterType.HoldingRegisters, 0, 1, []⟩) =
      some (true, some ⟨RegisterType.HoldingRegisters, 0, 1, [100]⟩) ∧
    (⟨RegisterType.HoldingRegisters, 0, 1, [100]⟩ : QModbusDataUnit).values.length =
      (⟨RegisterType.HoldingRegisters, 0, 1, [100]⟩ : QModbusDataUnit).valueCount :=
  ⟨by decide,
    C3_values_length_eq_valueCount ResponseHandler.readHoldingRegisters
      ⟨ReadHoldingRegisters, [2, 0, 100]⟩ ⟨RegisterType.HoldingRegisters, 0, 1, []⟩
      ⟨RegisterType.HoldingRegisters, 0, 1, [100]⟩ (by decide) (by decide) (by decide)⟩

/-- C4: for every response byte sequence, including truncated and malformed
input, every decoder of the dispatch table either rejects the response before
touching the payload or accesses only payload bytes that are in range. In the
embedding an out-of-range payload access is the outer none, and no handler
ever produces it. -/
theorem C4_decoders_never_index_out_of_range (h : ResponseHandler)
    (r : QModbusResponse) (d : Option QModbusDataUnit) :
    (applyHandler h r d).isSome = true :=
  applyHandler_isSome h r d

/-- C9: whenever a decoder returns false, the out data unit is left
unchanged: every validation check precedes every write to the out
parameter. -/
theorem C9_reject_leaves_out_unit_unchanged (h : ResponseHandler)
    (r : QModbusResponse) (d d' : Option QModbusDataUnit)
    (hres : applyHandler h r d = some (false, d')) : d' = d := by
  cases h with
  | readCoils => exact processReadCoilsResponse_false hres
  | readDiscreteInputs => exact processReadDiscreteInputsResponse_false hres
  | readHoldingRegisters => exact processReadHoldingRegistersResponse_false hres
  | readInputRegisters => exact processReadInputRegistersResponse_false hres
  | writeSingleCoil => exact processWriteSingleCoilResponse_false hres
  | writeSingleRegister => exact processWriteSingleRegisterResponse_false hres
  | writeMultipleCoils => exact processWriteMultipleCoilsResponse_false hres
  | writeMultipleRegisters => exact processWriteMultipleRegistersResponse_false hres
  | readWriteMultipleRegisters => exact processReadWriteMultipleRegistersResponse_false hres
  | privateResponse => exact @processPrivateResponse_false r d d' hres

/-- C9, witness at a concrete rejected response (wrong function code for the
ReadCoils decoder). -/
theorem C9_reject_leaves_out_unit_unchanged_witness :
    applyHandler ResponseHandler.readCoils ⟨ReadDiscreteInputs, [1, 3]⟩
        (some ⟨RegisterType.Coils, 0, 1, [0]⟩) =
      some (false, some ⟨RegisterType.Coils, 0, 1, [0]⟩) ∧
    (some (⟨RegisterType.Coils, 0, 1, [0]⟩ : QModbusDataUnit)) =
      (some (⟨RegisterType.Coils, 0, 1, [0]⟩ : QModbusDataUnit)) :=
  ⟨by decide,
    C9_reject_leaves_out_unit_unchanged ResponseHandler.readCoils ⟨ReadDiscreteInputs, [1, 3]⟩
      (some ⟨RegisterType.Coils, 0, 1, [0]⟩) (some ⟨RegisterType.Coils, 0, 1, [0]⟩) (by decide)⟩

/-- C5: the completion step always produces an effect whose raw result is the
arriving response PDU (the raw PDU is attached to the reply sink first,
unconditionally), and for an exception response (function code with the top
bit set) the reply is set to Errored with kind ProtocolError and no decoder is
invoked, regardless of the pending request. -/
theorem C5_raw_attached_and_exception_errored (pdu : QModbusResponse)
    (el : QueueElement) :
    (processQueueElement pdu el).isSome = true ∧
    (∀ eff, processQueueElement pdu el = some eff → eff.rawResult = pdu) ∧
    (pdu.isException = true →
      processQueueElement pdu el =
        some ⟨pdu, false, ReplyOutcome.error ReplyErrorKind.ProtocolError⟩) := by
  refine ⟨?_, ?_, ?_⟩
  · unfold processQueueElement
    split
    · rfl
    · split
      · rfl
      · split
        · rename_i heq
          have hs := processResponse_isSome pdu (some el.unit)
          rw [heq] at hs
          simp at hs
        · rename_i ok unit heq
          split <;> rfl
  · intro eff heff
    unfold processQueueElement at heff
    repeat' (first | split at heff | dsimp only at heff)
    all_goals first | (cases heff; rfl) | simp_all
  · intro hex
    simp [processQueueElement, hex]

/-- C5, witness at a concrete exception response to a Common-kind pending
request. -/
theorem C5_raw_attached_and_exception_errored_witness :
    (⟨0x81, [2]⟩ : QModbusResponse).isException = true ∧
    processQueueElement ⟨0x81, [2]⟩ ⟨ReplyType.Common, ⟨RegisterType.Coils, 0, 1, []⟩⟩ =
      some ⟨⟨0x81, [2]⟩, false, ReplyOutcome.error ReplyErrorKind.ProtocolError⟩ :=
  ⟨by decide,
    (C5_raw_attached_and_exception_errored ⟨0x81, [2]⟩
      ⟨ReplyType.Common, ⟨RegisterType.Coils, 0, 1, []⟩⟩).2.2 (by decide)⟩

/-- C8: for a non-exception response arriving for a pending request of Raw
reply kind, the completion step marks the reply finished immediately after
attaching the raw result and invokes no decoder, whatever the payload. -/
theorem C8_raw_reply_finished_without_decode (pdu : QModbusResponse)
    (el : QueueElement) (hex : pdu.isException = false)
    (hraw : el.replyType = ReplyType.Raw) :
    processQueueElement pdu el = some ⟨pdu, false, ReplyOutcome.finished none⟩ := by
  simp [processQueueElement, hex, hraw]

/-- C8, witness at a concrete response whose payload would fail every decoder
(a ReadCoils response with an inconsistent byte count). -/
theorem C8_raw_reply_finished_without_decode_witness :
    (⟨ReadCoils, [9, 9]⟩ : QModbusResponse).isException = false ∧
    (⟨ReplyType.Raw, ⟨RegisterType.Invalid, 0, 0, []⟩⟩ : QueueElement).replyType =
      ReplyType.Raw ∧
    processQueueElement ⟨ReadCoils, [9, 9]⟩ ⟨ReplyType.Raw, ⟨RegisterType.Invalid, 0, 0, []⟩⟩ =
      some ⟨⟨ReadCoils, [9, 9]⟩, false, ReplyOutcome.finished none⟩ :=
  ⟨by decide, by decide,
    C8_raw_reply_finished_without_decode ⟨ReadCoils, [9, 9]⟩
      ⟨ReplyType.Raw, ⟨RegisterType.Invalid, 0, 0, []⟩⟩ (by decide) (by decide)⟩

/-- C6: for every WriteMultipleRegisters acknowledgement response of exactly
the minimum size, the decoder returns false when the decoded register count
lies outside the interval from 1 to 123, and accepts the boundary counts 1 and
123; the decoded count is big-endian from payload bytes 2 and 3. -/
theorem C6_wmr_ack_count_range (b0 b1 b2 b3 : Nat) (d : Option QModbusDataUnit) :
    (256 * (b2 % 256) + b3 % 256 < 1 ∨ 123 < 256 * (b2 % 256) + b3 % 256 →
      processWriteMultipleRegistersResponse ⟨WriteMultipleRegisters, [b0, b1, b2, b3]⟩ d =
        some (false, d)) ∧
    (256 * (b2 % 256) + b3 % 256 = 1 ∨ 256 * (b2 % 256) + b3 % 256 = 123 →
      (processWriteMultipleRegistersResponse ⟨WriteMultipleRegisters, [b0, b1, b2, b3]⟩ d).map
        Prod.fst = some true) := by
  have heval : processWriteMultipleRegistersResponse ⟨WriteMultipleRegisters, [b0, b1, b2, b3]⟩ d =
      if 256 * (b2 % 256) + b3 % 256 < 1 ∨ 123 < 256 * (b2 % 256) + b3 % 256 then
        some (false, d)
      else
        match d with
        | none => some (true, none)
        | some du =>
            some (true, some (((du.setStartAddress
              (256 * (b0 % 256) + b1 % 256)).setValueCount
              (256 * (b2 % 256) + b3 % 256)).setRegisterType
              RegisterType.HoldingRegisters)) := rfl
  constructor
  · intro hc
    rw [heval, if_pos hc]
  · intro hc
    have hcc : ¬ (256 * (b2 % 256) + b3 % 256 < 1 ∨ 123 < 256 * (b2 % 256) + b3 % 256) := by
      omega
    rw [heval, if_neg hcc]
    cases d <;> rfl

/-- C6, witness: a count of 200 is rejected, the boundary count 123 is
accepted. -/
theorem C6_wmr_ack_count_range_witness :
    (256 * (0 % 256) + 200 % 256 < 1 ∨ 123 < 256 * (0 % 256) + 200 % 256) ∧
    processWriteMultipleRegistersResponse ⟨WriteMultipleRegisters, [0, 5, 0, 200]⟩ none =
      some (false, none) ∧
    (256 * (0 % 256) + 123 % 256 = 1 ∨ 256 * (0 % 256) + 123 % 256 = 123) ∧
    (processWriteMultipleRegistersResponse ⟨WriteMultipleRegisters, [0, 5, 0, 123]⟩ none).map
      Prod.fst = some true :=
  ⟨by decide, (C6_wmr_ack_count_range 0 5 0 200 none).1 (by decide), by decide,
    (C6_wmr_ack_count_range 0 5 0 123 none).2 (by decide)⟩

set_option maxRecDepth 10000 in
/-- C7: the claim states that packing N boolean coil values with the
multiple-coil write builder and unpacking the produced bytes with the
read-coils decoder reproduces the same N values for every N. The bit cursor of
the packer in the source is a quint8 and wraps after 256 bits, so with 257
values that are zero except at index 256, byte 32 of the request is packed
from values 0 to 7 instead: the echoed payload decodes to 0 at index 256 where
the original value is 1, refuting the round trip. -/
theorem C7_coil_roundtrip_fails_beyond_256 :
    (processReadCoilsResponse
        ⟨ReadCoils,
          (createWriteRequest ⟨RegisterType.Coils, 0, 257,
            List.replicate 256 0 ++ [1]⟩).data.drop 4⟩
        (some ⟨RegisterType.Coils, 0, 257, []⟩)).bind
        (fun p => p.2.map fun u => (p.1, u.values.getD 256 0)) = some (true, 0) ∧
    (List.replicate 256 0 ++ [1]).getD 256 0 = 1 := by
  decide

lemma replicate_getD_zero (n i : Nat) : (List.replicate n (0 : Nat)).getD i 0 = 0 := by
  simp only [List.getD_eq_getElem?_getD, List.getElem?_replicate]
  split <;> rfl

lemma getD_eq_of_get?_eq {l l' : List Nat} {i : Nat} (h : l.get? i = l'.get? i) :
    l.getD i 0 = l'.getD i 0 := by
  simp only [List.getD_eq_getElem?_getD, ← List.get?_eq_getElem?, h]

/-- C10, counterexample: a ReadCoils response carrying a consistent byte-count
header of zero (payload [0]) supplies fewer than the requested 5 bits, yet the
decoder rejects it because the payload is below the minimum data size of the
protocol, so the claim as stated fails on this input. -/
theorem C10_counterexample_zero_byte_count :
    ((⟨ReadCoils, [0]⟩ : QModbusResponse).data.length - 1 = 0 % 256) ∧
    (8 * 0 < 5) ∧
    processReadCoilsResponse ⟨ReadCoils, [0]⟩ (some ⟨RegisterType.Coils, 0, 5, []⟩) =
      some (false, some ⟨RegisterType.Coils, 0, 5, []⟩) := by
  decide

/-- C10, amended: for the ReadCoils and ReadDiscreteInputs decoders, a
response with at least one packed data byte whose byte-count header is
consistent with the payload but supplies fewer than the requested valueCount
bits is accepted, and the output values sequence has length valueCount with
every entry at or beyond the supplied bits equal to 0. -/
theorem C10_short_supply_accepted_padded_with_zeros (b0 : Nat) (rest : List Nat)
    (du : QModbusDataUnit) (hcons : rest.length = b0 % 256) (hpos : 1 ≤ rest.length)
    (_hshort : 8 * rest.length < du.valueCount) :
    ∃ vs : List Nat,
      processReadCoilsResponse ⟨ReadCoils, b0 :: rest⟩ (some du) =
        some (true, some (du.setValues vs)) ∧
      processReadDiscreteInputsResponse ⟨ReadDiscreteInputs, b0 :: rest⟩ (some du) =
        some (true, some (du.setValues vs)) ∧
      vs.length = du.valueCount ∧
      ∀ i, 8 * rest.length ≤ i → vs.getD i 0 = 0 := by
  refine ⟨unpackBytes du.valueCount rest (List.replicate du.valueCount 0) 0, ?_, ?_, ?_, ?_⟩
  · have hval : isValid ⟨ReadCoils, b0 :: rest⟩ ReadCoils = true := rfl
    unfold processReadCoilsResponse
    split
    · rename_i hfalse
      rw [hval] at hfalse
      exact absurd hfalse (by simp)
    · split
      · rename_i hsz
        exfalso
        simp [QModbusResponse.dataSize, minimumDataSize, ReadCoils] at hsz
        omega
      · split
        · rename_i heq
          exact absurd heq (by simp)
        · rename_i b0h heq
          simp only [show (⟨ReadCoils, b0 :: rest⟩ : QModbusResponse).data = b0 :: rest from rfl,
            List.get?] at heq
          obtain rfl : b0 = b0h := by simpa using heq
          rw [if_neg (by simp [List.length_cons]; omega)]
          rfl
  · have hval : isValid ⟨ReadDiscreteInputs, b0 :: rest⟩ ReadDiscreteInputs = true := rfl
    unfold processReadDiscreteInputsResponse
    split
    · rename_i hfalse
      rw [hval] at hfalse
      exact absurd hfalse (by simp)
    · split
      · rename_i hsz
        exfalso
        simp [QModbusResponse.dataSize, minimumDataSize, ReadCoils, ReadDiscreteInputs] at hsz
        omega
      · split
        · rename_i heq
          exact absurd heq (by simp)
        · rename_i b0h heq
          simp only [show (⟨ReadDiscreteInputs, b0 :: rest⟩ : QModbusResponse).data = b0 :: rest
            from rfl, List.get?] at heq
          obtain rfl : b0 = b0h := by simpa using heq
          rw [if_neg (by simp [List.length_cons]; omega)]
          rfl
  · rw [unpackBytes_length]
    simp
  · intro i hi
    have h := unpackBytes_get?_ge du.valueCount rest (List.replicate du.valueCount 0) 0 i
      (by omega)
    rw [getD_eq_of_get?_eq h, replicate_getD_zero]

/-- C10, witness for the amended theorem at a concrete response: one data byte
of zeros against a requested count of nine coils. -/
theorem C10_short_supply_witness :
    ([(0 : Nat)].length = 1 % 256) ∧ (1 ≤ [(0 : Nat)].length) ∧
    (8 * [(0 : Nat)].length < 9) ∧
    (∃ vs : List Nat,
      processReadCoilsResponse ⟨ReadCoils, 1 :: [0]⟩
          (some ⟨RegisterType.Coils, 0, 9, []⟩) =
        some (true, some ((⟨RegisterType.Coils, 0, 9, []⟩ : QModbusDataUnit).setValues vs)) ∧
      processReadDiscreteInputsResponse ⟨ReadDiscreteInputs, 1 :: [0]⟩
          (some ⟨RegisterType.Coils, 0, 9, []⟩) =
        some (true, some ((⟨RegisterType.Coils, 0, 9, []⟩ : QModbusDataUnit).setValues vs)) ∧
      vs.length = (⟨RegisterType.Coils, 0, 9, []⟩ : QModbusDataUnit).valueCount ∧
      ∀ i, 8 * [(0 : Nat)].length ≤ i → vs.getD i 0 = 0) :=
  ⟨by decide, by decide, by decide,
    C10_short_supply_accepted_padded_with_zeros 1 [0] ⟨RegisterType.Coils, 0, 9, []⟩
      (by decide) (by decide) (by decide)⟩

end ModbusClient
